import Mathlib

/-!
Verification development for the Review Board diff-upload core.

The repository sources under verification are:
* `reviewboard/diffviewer/forms.py` (`UploadCommitForm`, `UploadDiffForm`),
* `reviewboard/hostingsvcs/github.py` (`GitHubClient.api_get_blob`,
  `GitHub.get_file_exists`),
* `reviewboard/diffviewer/tests/test_forms.py`.

The diff/patch pipeline itself (`reviewboard/diffviewer/diffutils.py`,
`reviewboard/diffviewer/managers.py`, the per-SCM diff parsers) is not part
of the sources; only its tests and callers are.  Those parts are modelled
from the specification (sections 3, 4.1-4.5) and each such definition is
marked `Modelled from the spec:` in its doc comment.

File content is modelled as a list of lines (`List String`); a buffer such
as `"Foo\nBar\n"` is `["Foo", "Bar"]`.  Machine-level byte and trailing
newline details are irrelevant to the properties proved here.
-/

namespace RB

/-! ## Data model (spec section 3) -/

/-- Modelled from the spec: the tag of one line of a hunk,
`Tag ∈ {Context, Removed, Added}` (spec section 3, `Hunk`). -/
inductive Tag where
  | Context
  | Removed
  | Added
deriving DecidableEq, Repr

/-- Modelled from the spec: one contiguous edit region (spec section 3,
`Hunk`): 1-based start lines, lengths, and the tagged lines. -/
structure Hunk where
  original_start : Nat
  original_length : Nat
  modified_start : Nat
  modified_length : Nat
  lines : List (Tag × String)
deriving DecidableEq, Repr

/-- Modelled from the spec: one file's change within a diff (spec section 3,
`FileDiffRecord`).  `original_revision` is `none` when the dialect does not
record one for the entry (e.g. a git pure-rename section with no `index`
line); revisions are otherwise opaque strings, with the `PRE_CREATION`
sentinel for newly added files. -/
structure FileDiffRecord where
  original_path : String
  modified_path : String
  original_revision : Option String
  modified_revision : Option String
  hunks : List Hunk
deriving DecidableEq, Repr

/-- Modelled from the spec: the sentinel revision for newly created files
(spec sections 3 and 4.3). -/
def PRE_CREATION : String := "PRE-CREATION"

/-! ## Patch engine (spec section 4.4) -/

/-- The Context and Removed texts of a hunk, in order: the lines the hunk
expects to find in the original buffer. -/
def origLines (h : Hunk) : List String :=
  h.lines.filterMap fun p =>
    match p.1 with
    | Tag.Context => some p.2
    | Tag.Removed => some p.2
    | Tag.Added => none

/-- The Context and Added texts of a hunk, in order: the lines the hunk
produces in the modified buffer. -/
def modLines (h : Hunk) : List String :=
  h.lines.filterMap fun p =>
    match p.1 with
    | Tag.Context => some p.2
    | Tag.Added => some p.2
    | Tag.Removed => none

/-- Modelled from the spec: apply one hunk at 0-based position `pos` of the
buffer (spec section 4.4): verify that the Context+Removed lines match the
source at the declared offset, then splice `modLines` in their place.  A
mismatch fails (`none`); the spec's bounded fuzzy search is modelled with
tolerance zero (exact offsets), which is all the proved claims exercise. -/
def applyHunk (buf : List String) (pos : Nat) (h : Hunk) : Option (List String) :=
  if pos + h.original_length ≤ buf.length
      ∧ (buf.drop pos).take h.original_length = origLines h then
    some (buf.take pos ++ modLines h ++ buf.drop (pos + h.original_length))
  else
    none

/-- Modelled from the spec: apply hunks in order, tracking the running
offset `delta` between original and current line numbers (spec section 4.4:
hunks are applied in ascending `original_start` order, output built by
splicing). -/
def applyHunksAux : List String → Int → List Hunk → Option (List String)
  | buf, _, [] => some buf
  | buf, delta, h :: hs =>
    let pos : Int := (h.original_start : Int) - 1 + delta
    if 0 ≤ pos then
      match applyHunk buf pos.toNat h with
      | some buf' =>
        applyHunksAux buf'
          (delta + (h.modified_length : Int) - (h.original_length : Int)) hs
      | none => none
    else
      none

/-- Modelled from the spec: the patch engine,
`apply(original, hunks) -> Result<Bytes, PatchError>` (spec section 4.4).
One call of this function is one patch-engine invocation. -/
def patch (orig : List String) (hunks : List Hunk) : Option (List String) :=
  applyHunksAux orig 0 hunks

/-! ## Parent-diff resolver (spec section 4.2) -/

/-- Modelled from the spec: the parent entry matched to a main record — the
parent `FileDiffRecord` whose `modified_path` equals the main record's
`original_path` (spec section 4.2). -/
def matchingParent (parent : List FileDiffRecord) (m : FileDiffRecord) :
    Option FileDiffRecord :=
  parent.find? fun p => p.modified_path == m.original_path

/-- A main record after parent-diff resolution: the effective source
path/revision to fetch, the parent hunks to pre-apply (empty when the
parent entry is absent or a pure rename), the main hunks, and the retained
parent entry stored with the record (at most its own matching entry). -/
structure ResolvedFileDiff where
  source_file : String
  source_revision : String
  parent_hunks : List Hunk
  hunks : List Hunk
  parent_entry : Option FileDiffRecord
deriving DecidableEq, Repr

/-- Modelled from the spec: resolve one main record against the parent diff
(spec section 4.2).  With a matching parent entry, fetch at the parent's
`original_path` and its `original_revision` (falling back to the main
record's own revision when the parent entry carries none, e.g. a rename-only
git section), and attach the parent's hunks; with no match, fetch using the
main record's own path/revision and attach nothing. -/
def resolveRecord (parent : List FileDiffRecord) (m : FileDiffRecord) :
    ResolvedFileDiff :=
  match matchingParent parent m with
  | some p =>
    { source_file := p.original_path
      source_revision := p.original_revision.getD (m.original_revision.getD "")
      parent_hunks := p.hunks
      hunks := m.hunks
      parent_entry := some p }
  | none =>
    { source_file := m.original_path
      source_revision := m.original_revision.getD ""
      parent_hunks := []
      hunks := m.hunks
      parent_entry := none }

/-- Modelled from the spec: resolve every main record (spec section 4.2).
Parent entries matching no main record appear nowhere in the result: they
are dropped. -/
def resolve (main parent : List FileDiffRecord) : List ResolvedFileDiff :=
  main.map (resolveRecord parent)

/-- Modelled from the spec: the backend existence checks the orchestrator
performs before committing an upload (spec sections 4.3 and 4.5): one
`(path, revision)` check per resolved main record, at its effective
source location. -/
def existenceChecks (main parent : List FileDiffRecord) :
    List (String × String) :=
  (resolve main parent).map fun r => (r.source_file, r.source_revision)

/-! ## Original / patched file reconstruction (spec sections 4.3, 4.4) -/

/-- Modelled from the spec: `get_original_file` (spec sections 4.3 and 4.4):
fetch the blob at the resolved source path/revision (`PRE_CREATION`
short-circuits to the empty buffer without a fetch), then, only when the
parent entry contributed content hunks, invoke the patch engine once to
apply them.  The second component counts patch-engine invocations. -/
def get_original_file (fetch : String → String → List String)
    (f : ResolvedFileDiff) : Option (List String) × Nat :=
  let data :=
    if f.source_revision = PRE_CREATION then [] else fetch f.source_file f.source_revision
  match f.parent_hunks with
  | [] => (some data, 0)
  | h :: hs => (patch data (h :: hs), 1)

/-- Modelled from the spec: `get_patched_file` (spec section 4.4): one
patch-engine invocation applying the main record's hunks to the
reconstructed original.  The second component counts patch-engine
invocations. -/
def get_patched_file (orig : List String) (f : ResolvedFileDiff) :
    Option (List String) × Nat :=
  (patch orig f.hunks, 1)

/-! ## Python string stripping -/

/-- The whitespace characters removed by Python's `str.strip()` (as used by
`clean_basedir` and `clean_base_commit_id` in
`reviewboard/diffviewer/forms.py`). -/
def pyIsSpace (c : Char) : Bool :=
  c == ' ' || c == '\t' || c == '\n' || c == '\r' || c == '\x0b' || c == '\x0c'

/-- Python's `str.strip()`: remove leading and trailing whitespace. -/
def pyStrip (s : String) : String :=
  String.mk (((s.data.dropWhile pyIsSpace).reverse.dropWhile pyIsSpace).reverse)

/-! ## Django form-field cleaning

The forms in `reviewboard/diffviewer/forms.py` are Django forms; the small
fragment of Django's `Form.full_clean` they rely on is modelled here:
each declared field is cleaned independently (a missing value for a
`CharField` becomes `""`; a required field errors on an empty value; then
`max_length` and the field's validators run), a successful field clean is
post-processed by the form's `clean_<field>` hook, and the form-level
`clean()` runs afterwards, contributing non-field errors.  A field value of
`none` models a key absent from the submitted data. -/

/-- Django `CharField.clean`: missing values become the empty string, a
required field rejects the empty value, then `max_length` (when declared)
and the declared validators run.  `Except.error` carries the message of the
validation error attached to the field. -/
def cleanCharField (required : Bool) (max_length : Option Nat)
    (validators : List (String → Bool)) (value : Option String) :
    Except String String :=
  let s := value.getD ""
  if required && s == "" then
    Except.error "This field is required."
  else if s != "" && (match max_length with
      | some n => s.length > n
      | none => false : Bool) then
    Except.error "Ensure this value has at most the maximum number of characters."
  else if s != "" && !(validators.all fun v => v s) then
    Except.error "Enter a valid value."
  else
    Except.ok s

/-- `UploadCommitForm.clean_author_date` / `clean_committer_date`
(`reviewboard/diffviewer/forms.py`): after the base `CharField` clean, the
cleaned string is handed to `dateutil`'s `isoparse`; a `ValueError` becomes
the validation error `This date must be in ISO 8601 format.` attached to
the field, and a successful parse replaces the string with the parsed
datetime.  `isoparse` is third-party and is passed in abstractly (parsed
datetimes are opaque `Nat` values). -/
def cleanDateField (isoparse : String → Option Nat) (required : Bool)
    (value : Option String) : Except String Nat :=
  match cleanCharField required none [] value with
  | Except.error e => Except.error e
  | Except.ok s =>
    match isoparse s with
    | some d => Except.ok d
    | none => Except.error "This date must be in ISO 8601 format."

/-- Decidable equality for field-cleaning outcomes. -/
instance exceptDecEq {ε α : Type} [DecidableEq ε] [DecidableEq α] :
    DecidableEq (Except ε α)
  | Except.ok a, Except.ok b =>
    if h : a = b then isTrue (by rw [h]) else isFalse (by simp [h])
  | Except.ok _, Except.error _ => isFalse (by simp)
  | Except.error _, Except.ok _ => isFalse (by simp)
  | Except.error e, Except.error f =>
    if h : e = f then isTrue (by rw [h]) else isFalse (by simp [h])

/-- `true` exactly on a successfully cleaned field. -/
def okField {α : Type} : Except String α → Bool
  | Except.ok _ => true
  | Except.error _ => false

/-- The cleaned value of a successfully cleaned field (with a fallback that
is never reached on a valid form). -/
def okValue {α : Type} (e : Except String α) (fallback : α) : α :=
  match e with
  | Except.ok a => a
  | Except.error _ => fallback

/-! ## UploadCommitForm (`reviewboard/diffviewer/forms.py`) -/

/-- The external collaborators of `UploadCommitForm`: `dateutil.isoparse`
and the commit-id validation from `reviewboard/diffviewer/validators`
(`COMMIT_ID_LENGTH`, `validate_commit_id`) and the length bounds from the
`DiffCommit` model, none of which are part of the sources. -/
structure CommitFormEnv where
  isoparse : String → Option Nat
  validate_commit_id : String → Bool
  commit_id_length : Nat
  name_max_length : Nat
  email_max_length : Nat

/-- The data submitted to `UploadCommitForm` (files and char fields);
`none` is a key absent from the submitted data. -/
structure CommitFormData where
  diff : Option String
  parent_diff : Option String
  commit_id : Option String
  parent_id : Option String
  commit_message : Option String
  author_name : Option String
  author_email : Option String
  author_date : Option String
  committer_name : Option String
  committer_email : Option String
  committer_date : Option String

/-- The outcome of cleaning every `UploadCommitForm` field plus the
non-field errors raised by `UploadCommitForm.clean`. -/
structure CommitFormClean where
  diff : Except String String
  parent_diff : Except String (Option String)
  commit_id : Except String String
  parent_id : Except String String
  commit_message : Except String String
  author_name : Except String String
  author_email : Except String String
  author_date : Except String Nat
  committer_name : Except String String
  committer_email : Except String String
  committer_date : Except String Nat
  non_field_errors : List String

/-- Clean `UploadCommitForm`: the declared fields of
`reviewboard/diffviewer/forms.py` with their declared `required`,
`max_length` and validator options, the `clean_author_date` /
`clean_committer_date` hooks, and the `clean()` override, which rejects a
`DiffSet` whose `history_id` is set (`Cannot upload commits to a published
diff.`) regardless of the submitted data. -/
def cleanCommitForm (env : CommitFormEnv) (history_id : Option Nat)
    (d : CommitFormData) : CommitFormClean :=
  { diff := match d.diff with
      | none => Except.error "This field is required."
      | some c => Except.ok c
    parent_diff := Except.ok d.parent_diff
    commit_id := cleanCharField true (some env.commit_id_length)
      [env.validate_commit_id] d.commit_id
    parent_id := cleanCharField true (some env.commit_id_length)
      [env.validate_commit_id] d.parent_id
    commit_message := cleanCharField true none [] d.commit_message
    author_name := cleanCharField true (some env.name_max_length) [] d.author_name
    author_email := cleanCharField true (some env.email_max_length) [] d.author_email
    author_date := cleanDateField env.isoparse true d.author_date
    committer_name := cleanCharField false (some env.name_max_length) [] d.committer_name
    committer_email := cleanCharField false (some env.email_max_length) [] d.committer_email
    committer_date := cleanDateField env.isoparse false d.committer_date
    non_field_errors :=
      if history_id.isSome then
        ["Cannot upload commits to a published diff."]
      else
        [] }

/-- Django `Form.is_valid`: no field errors and no non-field errors. -/
def CommitFormClean.is_valid (c : CommitFormClean) : Bool :=
  okField c.diff && okField c.parent_diff && okField c.commit_id
    && okField c.parent_id && okField c.commit_message
    && okField c.author_name && okField c.author_email
    && okField c.author_date && okField c.committer_name
    && okField c.committer_email && okField c.committer_date
    && c.non_field_errors.isEmpty

/-- `UploadCommitForm.is_valid()` on the submitted data. -/
def commitFormIsValid (env : CommitFormEnv) (history_id : Option Nat)
    (d : CommitFormData) : Bool :=
  (cleanCommitForm env history_id d).is_valid

/-- The created `DiffCommit`'s metadata (spec section 3,
`CommitMetadata`). -/
structure DiffCommit where
  commit_id : String
  parent_id : String
  commit_message : String
  author_name : String
  author_email : String
  author_date : Nat
  committer_name : String
  committer_email : String
  committer_date : Nat
deriving DecidableEq, Repr

/-- Modelled from the spec:
`DiffCommit.objects.create_from_upload` (`reviewboard/diffviewer/managers.py`
is not part of the sources) — "committer fields optional and default to
author's when absent" (spec section 3).  The form hands an empty string for
an absent optional char field and `none` for a missing parsed date, so
those are the absent values defaulted here. -/
def create_from_upload (commit_id parent_id commit_message author_name
    author_email : String) (author_date : Nat)
    (committer_name committer_email : String) (committer_date : Option Nat) :
    DiffCommit :=
  { commit_id := commit_id
    parent_id := parent_id
    commit_message := commit_message
    author_name := author_name
    author_email := author_email
    author_date := author_date
    committer_name := if committer_name = "" then author_name else committer_name
    committer_email := if committer_email = "" then author_email else committer_email
    committer_date := committer_date.getD author_date }

/-- `UploadCommitForm.create`: guarded by `assert self.is_valid()`; on a
valid form, hands the cleaned data to
`DiffCommit.objects.create_from_upload`.  `none` models the `create` call
never producing a `DiffCommit` (the assertion fails on an invalid form). -/
def commitFormCreate (env : CommitFormEnv) (history_id : Option Nat)
    (d : CommitFormData) : Option DiffCommit :=
  let c := cleanCommitForm env history_id d
  if c.is_valid then
    some (create_from_upload
      (okValue c.commit_id "") (okValue c.parent_id "")
      (okValue c.commit_message "") (okValue c.author_name "")
      (okValue c.author_email "") (okValue c.author_date 0)
      (okValue c.committer_name "") (okValue c.committer_email "")
      c.committer_date.toOption)
  else
    none

/-! ## UploadDiffForm (`reviewboard/diffviewer/forms.py`) -/

/-- `UploadDiffForm.__init__`: the declared fields, with `basedir` deleted
when the repository's SCM tool reports `diffs_use_absolute_paths`. -/
def diffFormFields (diffs_use_absolute_paths : Bool) : List String :=
  let fields := ["path", "parent_diff_path", "basedir", "base_commit_id"]
  if diffs_use_absolute_paths then fields.erase "basedir" else fields

/-- `UploadDiffForm.clean_basedir`: the empty string when the SCM tool uses
absolute paths, otherwise the submitted value stripped of leading and
trailing whitespace. -/
def clean_basedir (diffs_use_absolute_paths : Bool) (basedir : String) :
    String :=
  if diffs_use_absolute_paths then "" else pyStrip basedir

/-- `UploadDiffForm.clean_base_commit_id`: the submitted value stripped of
leading and trailing whitespace, or `None` if that value would be empty. -/
def clean_base_commit_id (base_commit_id : String) : Option String :=
  let s := pyStrip base_commit_id
  if s = "" then none else some s

/-- The `base_commit_id` value the form's cleaned data ends up holding:
Django turns an absent optional `CharField` into `""`, then
`clean_base_commit_id` runs. -/
def cleanedBaseCommitId (value : Option String) : Option String :=
  clean_base_commit_id (value.getD "")

/-- The `basedir` value handed to `DiffSet.objects.create_from_upload` by
`UploadDiffForm.create`: Django cleans only the declared fields, so when
`__init__` deleted `basedir` the cleaned data has no entry and `create`'s
`self.cleaned_data.get('basedir', '')` falls back to `''`; otherwise
`basedir` is a required field whose successful clean runs
`clean_basedir`. -/
def basedirForCreate (diffs_use_absolute_paths : Bool)
    (basedir : Option String) : Except String String :=
  if (diffFormFields diffs_use_absolute_paths).contains "basedir" then
    match cleanCharField true none [] basedir with
    | Except.error e => Except.error e
    | Except.ok s => Except.ok (clean_basedir diffs_use_absolute_paths s)
  else
    Except.ok ""

/-! ## Diff-dialect base revision (spec section 4.1) -/

/-- Modelled from the spec: `get_orig_commit_id()` of the Mercurial diff
dialect (the per-SCM parsers are not part of the sources) — "some dialects
embed the base revision in diff metadata (e.g., a header comment)" (spec
section 4.1); for Mercurial that is the `# Parent` header line. -/
def get_orig_commit_id (diff_lines : List String) : Option String :=
  diff_lines.findSome? fun l =>
    if List.isPrefixOf "# Parent".data l.data then
      some (pyStrip (String.mk (l.data.drop 8)))
    else
      none

/-- Modelled from the spec: the source revision recorded on a created
`FileDiffRecord` (spec section 4.1) — when the dialect embeds a base
revision it "overrides any explicitly supplied base revision"; the embedded
revision considered is the parent diff's when a parent diff is supplied
(its `# Parent` names the revision the whole stack is built on), else the
main diff's; with no embedded revision, the explicitly supplied
`base_commit_id`, else the per-file marker revision. -/
def createdSourceRevision (main_diff_lines : List String)
    (parent_diff_lines : Option (List String))
    (marker_revision : String) (base_commit_id : Option String) : String :=
  let embedded :=
    match parent_diff_lines with
    | some pl => get_orig_commit_id pl
    | none => get_orig_commit_id main_diff_lines
  match embedded with
  | some c => c
  | none => base_commit_id.getD marker_revision

/-! ## GitHub hosting service (`reviewboard/hostingsvcs/github.py`) -/

/-- The failure of an underlying HTTP request
(`urllib`'s `URLError` / `HTTPError`, both caught by `api_get_blob`). -/
inductive HttpFailure where
  | urlError (reason : String)
  | httpError (code : Nat) (body : String)
deriving DecidableEq, Repr

/-- `reviewboard.scmtools.errors.FileNotFoundError`, carrying the requested
path and revision. -/
inductive ScmFileError where
  | fileNotFound (path : String) (revision : String)
deriving DecidableEq, Repr

/-- A `GitHubClient` with its linked account: the access token used by
`_build_api_url` and the underlying `http_get` transport. -/
structure GitHubSession where
  token : String
  http_get : String → Except HttpFailure (List Nat)

/-- `GitHubClient._build_api_url`: join the path components with `/` and
append the account's access token as a query parameter. -/
def build_api_url (session : GitHubSession) (api_paths : List String) :
    String :=
  let url := String.intercalate "/" api_paths
  let url := if url.contains '?' then url ++ "&" else url ++ "?"
  url ++ "access_token=" ++ session.token

/-- `GitHubClient.api_get_blob`: fetch `git/blobs/<sha>` under the
repository API URL; any `URLError`/`HTTPError` from the HTTP layer is
turned into `FileNotFoundError(path, sha)`. -/
def api_get_blob (session : GitHubSession) (repo_api_url path sha : String) :
    Except ScmFileError (List Nat) :=
  match session.http_get
      (build_api_url session [repo_api_url, "git/blobs/" ++ sha]) with
  | Except.ok data => Except.ok data
  | Except.error _ => Except.error (ScmFileError.fileNotFound path sha)

/-- `GitHub.get_file`: delegates to `api_get_blob`. -/
def get_file (session : GitHubSession) (repo_api_url path revision : String) :
    Except ScmFileError (List Nat) :=
  api_get_blob session repo_api_url path revision

/-- `GitHub.get_file_exists`: `true` when `api_get_blob` succeeds, `false`
exactly when it raises `FileNotFoundError`. -/
def get_file_exists (session : GitHubSession)
    (repo_api_url path revision : String) : Bool :=
  match api_get_blob session repo_api_url path revision with
  | Except.ok _ => true
  | Except.error (ScmFileError.fileNotFound _ _) => false

/-! ## Concrete instances

The concrete diffs, records and form data of the scenarios in the test
suite (`reviewboard/diffviewer/tests/test_forms.py`), used to instantiate
the theorems below. -/

/-- The fetched blob `"Foo\n"` of the parent-diff tests: the repository
backend answers every fetch with that single line. -/
def fooFetch : String → String → List String := fun _ _ => ["Foo"]

/-- The parent hunk `@@ -1,1 +1,2 @@` appending `"Bar\n"` to `"Foo\n"`. -/
def parentHunkC1 : Hunk :=
  { original_start := 1, original_length := 1, modified_start := 1,
    modified_length := 2, lines := [(Tag.Context, "Foo"), (Tag.Added, "Bar")] }

/-- The main hunk `@@ -1,2 +1,3 @@` appending `"Baz\n"` to `"Foo\nBar\n"`. -/
def mainHunkC1 : Hunk :=
  { original_start := 1, original_length := 2, modified_start := 1,
    modified_length := 3,
    lines := [(Tag.Context, "Foo"), (Tag.Context, "Bar"), (Tag.Added, "Baz")] }

/-- The parent entry of the move-and-change scenario: rename `foo` to `bar`
with a content hunk. -/
def parentRecordC1 : FileDiffRecord :=
  { original_path := "foo", modified_path := "bar",
    original_revision := some "93e6b3e8", modified_revision := some "4839fc48",
    hunks := [parentHunkC1] }

/-- The main entry of the move-and-change scenario: modify `bar`. -/
def mainRecordC1 : FileDiffRecord :=
  { original_path := "bar", modified_path := "bar",
    original_revision := some "4839fc48", modified_revision := some "04861c12",
    hunks := [mainHunkC1] }

/-- The parent entry of the move-and-no-change scenario: a pure rename
`foo` to `bar`, no index line, no hunks. -/
def renameParentRecord : FileDiffRecord :=
  { original_path := "foo", modified_path := "bar",
    original_revision := none, modified_revision := none, hunks := [] }

/-- A pure-rename parent entry that carries its own original revision. -/
def renameParentRecordRev : FileDiffRecord :=
  { original_path := "foo", modified_path := "bar",
    original_revision := some "93e6b3e8", modified_revision := none,
    hunks := [] }

/-- The main entry of the move-and-no-change scenario: modify `bar`,
appending `"Bar\n"`. -/
def mainRecordC2 : FileDiffRecord :=
  { original_path := "bar", modified_path := "bar",
    original_revision := some "93e6b3e8", modified_revision := some "4839fc48",
    hunks := [{ original_start := 1, original_length := 1, modified_start := 1,
                modified_length := 2,
                lines := [(Tag.Context, "Foo"), (Tag.Added, "Bar")] }] }

/-- The `README` hunk of the parent-diff-filtering scenario. -/
def readmeParentHunk : Hunk :=
  { original_start := 2, original_length := 1, modified_start := 2,
    modified_length := 1,
    lines := [(Tag.Removed, "blah.."), (Tag.Added, "blah blah")] }

/-- The `UNUSED` hunk of the parent-diff-filtering scenario. -/
def unusedParentHunk : Hunk :=
  { original_start := 1, original_length := 1, modified_start := 1,
    modified_length := 1, lines := [(Tag.Removed, "foo"), (Tag.Added, "bar")] }

/-- The parent entry for `README` (revision `d6613f4`). -/
def parentReadme : FileDiffRecord :=
  { original_path := "README", modified_path := "README",
    original_revision := some "d6613f4", modified_revision := some "5b50865",
    hunks := [readmeParentHunk] }

/-- The parent entry for `UNUSED`, untouched by the main diff. -/
def parentUnused : FileDiffRecord :=
  { original_path := "UNUSED", modified_path := "UNUSED",
    original_revision := some "1234567", modified_revision := some "5b50866",
    hunks := [unusedParentHunk] }

/-- The main entry of the parent-diff-filtering scenario: only `README`. -/
def mainReadme : FileDiffRecord :=
  { original_path := "README", modified_path := "README",
    original_revision := some "d6613f4", modified_revision := some "5b50865",
    hunks := [{ original_start := 1, original_length := 1, modified_start := 1,
                modified_length := 1,
                lines := [(Tag.Removed, "Hello"), (Tag.Added, "Hello there")] }] }

/-- The Mercurial parent diff of the `get_orig_commit_id` scenario, as
lines: its `# Parent` header embeds the base revision of the stack. -/
def hgParentDiff : List String :=
  ["# Node ID 7c4735ef51a7c665b5654f1a111ae430ce84ebbd",
   "# Parent  661e5dd3c4938ecbe8f77e2fdfa905d70485f94c",
   "diff --git a/doc/newfile b/doc/newfile",
   "new file mode 100644",
   "--- /dev/null",
   "+++ b/doc/newfile",
   "@@ -0,0 +1,1 @@",
   "+Lorem ipsum"]

/-- The Mercurial main diff of the `get_orig_commit_id` scenario. -/
def hgMainDiff : List String :=
  ["# Node ID a6fc203fee9091ff9739c9c00cd4a6694e023f48",
   "# Parent  7c4735ef51a7c665b5654f1a111ae430ce84ebbd",
   "diff --git a/doc/readme b/doc/readme",
   "--- a/doc/readme",
   "+++ b/doc/readme",
   "@@ -1,3 +1,3 @@",
   " Hello",
   "-",
   "+...",
   " goodbye"]

/-- A concrete form environment: `isoparse` accepts exactly one ISO-8601
string, commit ids are unconstrained, lengths as in the models. -/
def envW : CommitFormEnv :=
  { isoparse := fun s => if s = "1970-01-01T00:00:00" then some 0 else none
    validate_commit_id := fun _ => true
    commit_id_length := 64
    name_max_length := 256
    email_max_length := 256 }

/-- Fully valid commit-form data (every field present and well-formed). -/
def commitDataFull : CommitFormData :=
  { diff := some "diff content", parent_diff := none, commit_id := some "r1",
    parent_id := some "r0", commit_message := some "Message",
    author_name := some "Author", author_email := some "author@example.org",
    author_date := some "1970-01-01T00:00:00",
    committer_name := some "Committer",
    committer_email := some "committer@example.org",
    committer_date := some "1970-01-01T00:00:00" }

/-- Commit-form data with every committer field absent, all else valid. -/
def commitDataNoCommitter : CommitFormData :=
  { commitDataFull with
    committer_name := none, committer_email := none, committer_date := none }

/-- Commit-form data whose author date is not ISO-8601 (`Jan 1 1970`). -/
def commitDataBadAuthorDate : CommitFormData :=
  { commitDataFull with author_date := some "Jan 1 1970" }

/-- A GitHub session whose HTTP layer fails every request with a 404. -/
def sessionW : GitHubSession :=
  { token := "tok"
    http_get := fun _ => Except.error (HttpFailure.httpError 404 "Not Found") }

/-! ## Helper lemmas -/

/-- A successfully cleaned field is `okField`. -/
@[simp]
theorem okField_ok {α : Type} (a : α) : okField (Except.ok a) = true := rfl

/-- A field with a validation error is not `okField`. -/
@[simp]
theorem okField_error {α : Type} (e : String) :
    okField (α := α) (Except.error e) = false := rfl

/-- The head of `dropWhile p l` does not satisfy `p`. -/
theorem head_dropWhile_false {α : Type} {p : α → Bool} {l : List α} {c : α}
    (h : (l.dropWhile p).head? = some c) : p c = false := by
  have hd := List.head?_dropWhile_not p l
  rw [h] at hd
  exact hd

/-- `dropWhile` is a suffix, so a last element of `dropWhile p l` is the
last element of `l`. -/
theorem getLast_dropWhile_eq {α : Type} {p : α → Bool} {l : List α} {c : α}
    (h : (l.dropWhile p).getLast? = some c) : l.getLast? = some c := by
  obtain ⟨u, hu⟩ := List.dropWhile_suffix (l := l) p
  rw [← hu, List.getLast?_append, h]
  rfl

/-- The first character of a Python-stripped string is not whitespace. -/
theorem pyStrip_head_not_space (s : String) (c : Char)
    (h : (pyStrip s).data.head? = some c) : pyIsSpace c = false := by
  have h' : (((s.data.dropWhile pyIsSpace).reverse.dropWhile
      pyIsSpace).reverse).head? = some c := h
  rw [List.head?_reverse] at h'
  have h2 := getLast_dropWhile_eq h'
  rw [List.getLast?_reverse] at h2
  exact head_dropWhile_false h2

/-- The last character of a Python-stripped string is not whitespace. -/
theorem pyStrip_getLast_not_space (s : String) (c : Char)
    (h : (pyStrip s).data.getLast? = some c) : pyIsSpace c = false := by
  have h' : (((s.data.dropWhile pyIsSpace).reverse.dropWhile
      pyIsSpace).reverse).getLast? = some c := h
  rw [List.getLast?_reverse] at h'
  exact head_dropWhile_false h'

/-- An author-date validation error alone makes the commit form invalid and
prevents `create` from producing a `DiffCommit`. -/
theorem author_date_error_invalidates (env : CommitFormEnv)
    (hist : Option Nat) (d : CommitFormData) (e : String)
    (h : (cleanCommitForm env hist d).author_date = Except.error e) :
    commitFormIsValid env hist d = false
    ∧ commitFormCreate env hist d = none := by
  constructor
  · simp [commitFormIsValid, CommitFormClean.is_valid, h]
  · simp [commitFormCreate, CommitFormClean.is_valid, h]

/-- A committer-date validation error alone makes the commit form invalid
and prevents `create` from producing a `DiffCommit`. -/
theorem committer_date_error_invalidates (env : CommitFormEnv)
    (hist : Option Nat) (d : CommitFormData) (e : String)
    (h : (cleanCommitForm env hist d).committer_date = Except.error e) :
    commitFormIsValid env hist d = false
    ∧ commitFormCreate env hist d = none := by
  constructor
  · simp [commitFormIsValid, CommitFormClean.is_valid, h]
  · simp [commitFormCreate, CommitFormClean.is_valid, h]

/-- A `resolveRecord` only ever stores the parent entry found by
`matchingParent`. -/
theorem parent_entry_eq_matchingParent (parent : List FileDiffRecord)
    (m q : FileDiffRecord)
    (h : (resolveRecord parent m).parent_entry = some q) :
    matchingParent parent m = some q := by
  cases hm : matchingParent parent m with
  | none => simp [resolveRecord, hm] at h
  | some r =>
    simp [resolveRecord, hm] at h
    exact congrArg some h

/-! ## Claims -/

/-- Claim C1: for a file whose parent diff carries content hunks, the
original file is reconstructed by applying the parent hunks to the fetched
blob, and the patched file by applying the main hunks to that
intermediate: with fetched blob `"Foo\n"`, a parent hunk appending
`"Bar\n"` and a main hunk appending `"Baz\n"`, `get_original_file` yields
`"Foo\nBar\n"` and `get_patched_file` yields `"Foo\nBar\nBaz\n"`, with
exactly two patch-engine invocations in total (one per stage). -/
theorem two_stage_parent_diff_application :
    get_original_file fooFetch (resolveRecord [parentRecordC1] mainRecordC1)
      = (some ["Foo", "Bar"], 1)
    ∧ get_patched_file ["Foo", "Bar"] (resolveRecord [parentRecordC1] mainRecordC1)
      = (some ["Foo", "Bar", "Baz"], 1)
    ∧ (get_original_file fooFetch (resolveRecord [parentRecordC1] mainRecordC1)).2
      + (get_patched_file ["Foo", "Bar"]
          (resolveRecord [parentRecordC1] mainRecordC1)).2 = 2 := by
  decide

/-- Claim C2: when a file's parent entry is a pure rename with no content
hunks, `get_original_file` makes zero patch-engine invocations and returns
the fetched blob as-is, fetched at the parent entry's original
revision/path, while `get_patched_file` makes exactly one patch-engine
invocation for the main diff's hunks. -/
theorem pure_rename_parent_skips_patch (fetch : String → String → List String)
    (parent : List FileDiffRecord) (m p : FileDiffRecord) (rev : String)
    (hmatch : matchingParent parent m = some p)
    (hpure : p.hunks = [])
    (hrev : p.original_revision = some rev)
    (hpre : rev ≠ PRE_CREATION) :
    get_original_file fetch (resolveRecord parent m)
      = (some (fetch p.original_path rev), 0)
    ∧ (get_patched_file (fetch p.original_path rev)
        (resolveRecord parent m)).2 = 1 := by
  have hres : resolveRecord parent m
      = { source_file := p.original_path, source_revision := rev,
          parent_hunks := [], hunks := m.hunks, parent_entry := some p } := by
    simp [resolveRecord, hmatch, hrev, hpure]
  constructor
  · rw [hres]
    simp [get_original_file, hpre]
  · rfl

/-- Witness for C2 at the move-and-no-change scenario: rename-only parent
entry with its own original revision, fetched blob `"Foo\n"`. -/
theorem pure_rename_parent_skips_patch_w :
    get_original_file (fun _ _ => ["Foo"])
      (resolveRecord [renameParentRecordRev] mainRecordC2)
      = (some ["Foo"], 0)
    ∧ (get_patched_file ["Foo"]
        (resolveRecord [renameParentRecordRev] mainRecordC2)).2 = 1 := by
  have h := pure_rename_parent_skips_patch (fun _ _ => ["Foo"])
    [renameParentRecordRev] mainRecordC2 renameParentRecordRev "93e6b3e8"
    (by decide) rfl rfl (by decide)
  exact h

/-- Claim C3: parent entries whose modified path matches no main entry's
original path are dropped: they are never the retained parent entry of any
resolved record, every backend existence check belongs to a main record
(at its resolved source path/revision), and a retained record stores at
most its own matching parent entry; concretely, with a parent diff
touching `README` and `UNUSED` and a main diff touching only `README`,
exactly one check is made, for `README` at the parent's original revision,
and the sole record retains only the `README` parent entry. -/
theorem unrelated_parent_entries_dropped (main parent : List FileDiffRecord)
    (p : FileDiffRecord)
    (hnomatch : ∀ m ∈ main, m.original_path ≠ p.modified_path) :
    (∀ r ∈ resolve main parent, r.parent_entry ≠ some p)
    ∧ (∀ r ∈ resolve main parent, ∀ q, r.parent_entry = some q →
        ∃ m ∈ main, matchingParent parent m = some q
          ∧ q.modified_path = m.original_path)
    ∧ (∀ c ∈ existenceChecks main parent, ∃ m ∈ main,
        c = ((resolveRecord parent m).source_file,
          (resolveRecord parent m).source_revision))
    ∧ existenceChecks [mainReadme] [parentReadme, parentUnused]
      = [("README", "d6613f4")]
    ∧ (resolve [mainReadme] [parentReadme, parentUnused]).map
        ResolvedFileDiff.parent_entry = [some parentReadme] := by
  refine ⟨?_, ?_, ?_, by decide, by decide⟩
  · intro r hr hcontra
    simp only [resolve, List.mem_map] at hr
    obtain ⟨m, hm, rfl⟩ := hr
    have hfind := parent_entry_eq_matchingParent parent m p hcontra
    have hpred := List.find?_some hfind
    have : p.modified_path = m.original_path := by
      simpa using hpred
    exact hnomatch m hm this.symm
  · intro r hr q hq
    simp only [resolve, List.mem_map] at hr
    obtain ⟨m, hm, rfl⟩ := hr
    have hfind := parent_entry_eq_matchingParent parent m q hq
    have hpred := List.find?_some hfind
    exact ⟨m, hm, hfind, by simpa using hpred⟩
  · intro c hc
    simp only [existenceChecks, resolve, List.map_map, List.mem_map] at hc
    obtain ⟨m, hm, rfl⟩ := hc
    exact ⟨m, hm, rfl⟩

/-- Witness for C3 at the README/UNUSED scenario: the `UNUSED` parent
entry is never retained, and the single existence check is for `README`
at the parent's original revision. -/
theorem unrelated_parent_entries_dropped_w :
    (∀ r ∈ resolve [mainReadme] [parentReadme, parentUnused],
      r.parent_entry ≠ some parentUnused)
    ∧ existenceChecks [mainReadme] [parentReadme, parentUnused]
      = [("README", "d6613f4")] := by
  have h := unrelated_parent_entries_dropped [mainReadme]
    [parentReadme, parentUnused] parentUnused (by decide)
  exact ⟨h.1, h.2.2.2.1⟩

/-- Claim C4: when the diff dialect embeds a base revision in diff
metadata (`get_orig_commit_id`, e.g. a Mercurial `# Parent` header), the
created record's source revision equals the parent diff's embedded parent
commit ID, overriding both the per-file marker revision and the form's
`base_commit_id`. -/
theorem embedded_orig_commit_id_overrides_base
    (main_lines parent_lines : List String) (marker : String)
    (base : Option String) (c : String)
    (hembed : get_orig_commit_id parent_lines = some c) :
    createdSourceRevision main_lines (some parent_lines) marker base = c := by
  simp [createdSourceRevision, hembed]

/-- Witness for C4 at the Mercurial scenario: the parent diff's
`# Parent  661e5dd3...` header wins over a distinct marker revision and a
distinct explicit base commit ID. -/
theorem embedded_orig_commit_id_overrides_base_w :
    createdSourceRevision hgMainDiff (some hgParentDiff)
      "7c4735ef51a7c665b5654f1a111ae430ce84ebbd" (some "explicit-base")
      = "661e5dd3c4938ecbe8f77e2fdfa905d70485f94c" :=
  embedded_orig_commit_id_overrides_base hgMainDiff hgParentDiff
    "7c4735ef51a7c665b5654f1a111ae430ce84ebbd" (some "explicit-base")
    "661e5dd3c4938ecbe8f77e2fdfa905d70485f94c" (by decide)

/-- Claim C5: a commit upload targeting a `DiffSet` whose history
reference is already set fails validation with the already-published
error, regardless of the rest of the submitted data, and no `DiffCommit`
is created. -/
theorem published_diffset_upload_rejected (env : CommitFormEnv)
    (d : CommitFormData) (hist : Option Nat) (h : hist.isSome = true) :
    "Cannot upload commits to a published diff."
      ∈ (cleanCommitForm env hist d).non_field_errors
    ∧ commitFormIsValid env hist d = false
    ∧ commitFormCreate env hist d = none := by
  refine ⟨?_, ?_, ?_⟩
  · simp [cleanCommitForm, h]
  · simp [commitFormIsValid, CommitFormClean.is_valid, cleanCommitForm, h]
  · simp [commitFormCreate, CommitFormClean.is_valid, cleanCommitForm, h]

/-- Witness for C5: fully valid form data still fails once the `DiffSet`
has a history attached. -/
theorem published_diffset_upload_rejected_w :
    "Cannot upload commits to a published diff."
      ∈ (cleanCommitForm envW (some 1) commitDataFull).non_field_errors
    ∧ commitFormIsValid envW (some 1) commitDataFull = false
    ∧ commitFormCreate envW (some 1) commitDataFull = none :=
  published_diffset_upload_rejected envW commitDataFull (some 1) rfl

/-- Claim C6: the author and committer date strings are accepted exactly
when `isoparse` accepts them as ISO-8601: a successful parse replaces the
string with the parsed datetime, and a failed parse attaches a validation
error to that date field, makes the form invalid, and prevents `create`
(and with it any diff parsing or patching) from running. -/
theorem date_fields_require_iso8601 (env : CommitFormEnv) (hist : Option Nat)
    (d : CommitFormData) (s t : String)
    (hempty : env.isoparse "" = none)
    (ha : d.author_date = some s)
    (hc : d.committer_date = some t) :
    (okField (cleanCommitForm env hist d).author_date
        = (env.isoparse s).isSome
      ∧ okField (cleanCommitForm env hist d).committer_date
        = (env.isoparse t).isSome)
    ∧ (∀ dt, env.isoparse s = some dt →
        (cleanCommitForm env hist d).author_date = Except.ok dt)
    ∧ (∀ dt, env.isoparse t = some dt →
        (cleanCommitForm env hist d).committer_date = Except.ok dt)
    ∧ (env.isoparse s = none →
        (s ≠ "" → (cleanCommitForm env hist d).author_date
          = Except.error "This date must be in ISO 8601 format.")
        ∧ commitFormIsValid env hist d = false
        ∧ commitFormCreate env hist d = none)
    ∧ (env.isoparse t = none →
        (cleanCommitForm env hist d).committer_date
          = Except.error "This date must be in ISO 8601 format."
        ∧ commitFormIsValid env hist d = false
        ∧ commitFormCreate env hist d = none) := by
  have hAD : (cleanCommitForm env hist d).author_date
      = cleanDateField env.isoparse true (some s) := by
    simp [cleanCommitForm, ha]
  have hCD : (cleanCommitForm env hist d).committer_date
      = cleanDateField env.isoparse false (some t) := by
    simp [cleanCommitForm, hc]
  have hBaseA : cleanDateField env.isoparse true (some s)
      = (if s = "" then Except.error "This field is required."
         else
           match env.isoparse s with
           | some dt => Except.ok dt
           | none => Except.error "This date must be in ISO 8601 format.") := by
    by_cases hs : s = "" <;> simp [cleanDateField, cleanCharField, hs]
  have hBaseC : cleanDateField env.isoparse false (some t)
      = (match env.isoparse t with
         | some dt => Except.ok dt
         | none => Except.error "This date must be in ISO 8601 format.") := by
    by_cases ht : t = "" <;> simp [cleanDateField, cleanCharField, ht]
  refine ⟨⟨?_, ?_⟩, ?_, ?_, ?_, ?_⟩
  · rw [hAD, hBaseA]
    by_cases hs : s = ""
    · subst hs
      rw [if_pos rfl, hempty]
      rfl
    · rw [if_neg hs]
      cases hiso : env.isoparse s <;> rfl
  · rw [hCD, hBaseC]
    cases hiso : env.isoparse t <;> rfl
  · intro dt hdt
    have hs : s ≠ "" := by
      intro hcon
      rw [hcon, hempty] at hdt
      cases hdt
    rw [hAD, hBaseA, if_neg hs, hdt]
  · intro dt hdt
    rw [hCD, hBaseC, hdt]
  · intro hnone
    have herr : ∃ e, (cleanCommitForm env hist d).author_date
        = Except.error e := by
      rw [hAD, hBaseA]
      by_cases hs : s = ""
      · exact ⟨_, by rw [if_pos hs]⟩
      · exact ⟨_, by rw [if_neg hs, hnone]⟩
    obtain ⟨e, he⟩ := herr
    refine ⟨?_, (author_date_error_invalidates env hist d e he).1,
      (author_date_error_invalidates env hist d e he).2⟩
    intro hs
    rw [hAD, hBaseA, if_neg hs, hnone]
  · intro hnone
    have he : (cleanCommitForm env hist d).committer_date
        = Except.error "This date must be in ISO 8601 format." := by
      rw [hCD, hBaseC, hnone]
    exact ⟨he, (committer_date_error_invalidates env hist d _ he).1,
      (committer_date_error_invalidates env hist d _ he).2⟩

/-- Witness for C6: `Jan 1 1970` is rejected with the ISO-8601 error on
`author_date`, the form is invalid and nothing is created. -/
theorem date_fields_require_iso8601_w :
    (cleanCommitForm envW none commitDataBadAuthorDate).author_date
      = Except.error "This date must be in ISO 8601 format."
    ∧ commitFormIsValid envW none commitDataBadAuthorDate = false
    ∧ commitFormCreate envW none commitDataBadAuthorDate = none := by
  have h := date_fields_require_iso8601 envW none commitDataBadAuthorDate
    "Jan 1 1970" "1970-01-01T00:00:00" (by decide) rfl rfl
  have h4 := h.2.2.2.1 (by decide)
  exact ⟨h4.1 (by decide), h4.2.1, h4.2.2⟩

/-- Claim C7: with `diffs_use_absolute_paths` true the `basedir` field is
removed from the form and the basedir used by `create` is the empty
string; with it false, `basedir` is a required field whose cleaned value
is the submitted string stripped of leading and trailing whitespace. -/
theorem basedir_absolute_paths_behavior (v : Option String) (s : String) :
    "basedir" ∉ diffFormFields true
    ∧ "basedir" ∈ diffFormFields false
    ∧ basedirForCreate true v = Except.ok ""
    ∧ (v = none →
        basedirForCreate false v = Except.error "This field is required.")
    ∧ (v = some s → s ≠ "" →
        basedirForCreate false v = Except.ok (pyStrip s)) := by
  refine ⟨by decide, by decide, rfl, ?_, ?_⟩
  · intro hv
    rw [hv]
    decide
  · intro hv hs
    rw [hv]
    simp [basedirForCreate, diffFormFields, cleanCharField, clean_basedir, hs]

/-- Witness for C7: a padded basedir is stripped on a repository whose SCM
tool does not use absolute paths. -/
theorem basedir_absolute_paths_behavior_w :
    basedirForCreate false (some "  /trunk ") = Except.ok (pyStrip "  /trunk ") :=
  (basedir_absolute_paths_behavior (some "  /trunk ") "  /trunk ").2.2.2.2
    rfl (by decide)

/-- Claim C8 (at its failing input): with all committer fields absent and
everything else valid, `clean_committer_date` hands the empty string to
`isoparse`, which rejects it, so the form is invalid and no `DiffCommit`
is created at all — even though the committer name and e-mail fields clean
fine and the spec-modelled `create_from_upload` would indeed default
absent committer fields to the author's values. -/
theorem absent_committer_date_rejects_form :
    okField (cleanCommitForm envW none commitDataNoCommitter).author_date = true
    ∧ okField (cleanCommitForm envW none commitDataNoCommitter).committer_name
      = true
    ∧ okField (cleanCommitForm envW none commitDataNoCommitter).committer_email
      = true
    ∧ (cleanCommitForm envW none commitDataNoCommitter).committer_date
      = Except.error "This date must be in ISO 8601 format."
    ∧ commitFormIsValid envW none commitDataNoCommitter = false
    ∧ commitFormCreate envW none commitDataNoCommitter = none
    ∧ (create_from_upload "r1" "r0" "Message" "Author" "author@example.org" 0
        "" "" none).committer_name = "Author"
    ∧ (create_from_upload "r1" "r0" "Message" "Author" "author@example.org" 0
        "" "" none).committer_email = "author@example.org"
    ∧ (create_from_upload "r1" "r0" "Message" "Author" "author@example.org" 0
        "" "" none).committer_date = 0 := by
  decide

/-- Claim C9: a failed HTTP request while fetching a blob surfaces as a
file-not-found error carrying the requested path and revision (never a raw
HTTP error), and `get_file_exists` is `true` exactly when the blob fetch
succeeds and `false` exactly when that file-not-found error is raised. -/
theorem github_blob_fetch_not_found (session : GitHubSession)
    (repo_api_url path revision : String) :
    (∀ e, api_get_blob session repo_api_url path revision = Except.error e →
      e = ScmFileError.fileNotFound path revision)
    ∧ (get_file_exists session repo_api_url path revision = true
      ↔ ∃ data, api_get_blob session repo_api_url path revision
        = Except.ok data)
    ∧ (get_file_exists session repo_api_url path revision = false
      ↔ api_get_blob session repo_api_url path revision
        = Except.error (ScmFileError.fileNotFound path revision))
    ∧ get_file session repo_api_url path revision
      = api_get_blob session repo_api_url path revision := by
  unfold get_file get_file_exists api_get_blob
  cases h : session.http_get
      (build_api_url session [repo_api_url, "git/blobs/" ++ revision]) with
  | ok data => simp
  | error err => simp

/-- Witness for C9: when every request 404s, the blob fetch reports
file-not-found for the requested path and revision and
`get_file_exists` answers `false`. -/
theorem github_blob_fetch_not_found_w :
    get_file_exists sessionW "api" "readme.txt" "abc123" = false
    ∧ ScmFileError.fileNotFound "readme.txt" "abc123"
      = ScmFileError.fileNotFound "readme.txt" "abc123" := by
  have h := github_blob_fetch_not_found sessionW "api" "readme.txt" "abc123"
  exact ⟨h.2.2.1.mpr rfl,
    h.1 (ScmFileError.fileNotFound "readme.txt" "abc123") rfl⟩

/-- Claim C10: the cleaned `base_commit_id` is the submitted string
stripped of leading and trailing whitespace, is `None` exactly when the
stripped value is empty (including an omitted field), and is therefore
never empty or whitespace-padded. -/
theorem base_commit_id_stripped_or_none (v : Option String) :
    (cleanedBaseCommitId v = none ↔ pyStrip (v.getD "") = "")
    ∧ (∀ s, cleanedBaseCommitId v = some s →
        s = pyStrip (v.getD "") ∧ s ≠ ""
        ∧ (∀ c, s.data.head? = some c → pyIsSpace c = false)
        ∧ (∀ c, s.data.getLast? = some c → pyIsSpace c = false))
    ∧ cleanedBaseCommitId none = none := by
  have hval : cleanedBaseCommitId v
      = if pyStrip (v.getD "") = "" then none
        else some (pyStrip (v.getD "")) := rfl
  refine ⟨?_, ?_, rfl⟩
  · rw [hval]
    by_cases h : pyStrip (v.getD "") = "" <;> simp [h]
  · intro s hs
    rw [hval] at hs
    by_cases h : pyStrip (v.getD "") = ""
    · rw [if_pos h] at hs
      cases hs
    · rw [if_neg h] at hs
      injection hs with hs'
      subst hs'
      exact ⟨rfl, h, fun c hc => pyStrip_head_not_space _ c hc,
        fun c hc => pyStrip_getLast_not_space _ c hc⟩

/-- Witness for C10: a padded base commit ID is stripped, non-empty, and
whitespace-free at both ends. -/
theorem base_commit_id_stripped_or_none_w :
    "1234" = pyStrip ((some "  1234 " : Option String).getD "")
    ∧ "1234" ≠ ""
    ∧ (∀ c, ("1234" : String).data.head? = some c → pyIsSpace c = false)
    ∧ (∀ c, ("1234" : String).data.getLast? = some c → pyIsSpace c = false) :=
  (base_commit_id_stripped_or_none (some "  1234 ")).2.1 "1234" (by decide)

end RB
